import Mathlib

/-!
A shallow embedding of the BeforeAfterReelsTool React component
(`BeforeAfterReelsTool.jsx`): the ~50 canvas transition effects, the
dispatch among them, and the animation driver (playAnimation / animate /
stopAnimation).

Modelling conventions:
* JavaScript numbers are modelled as exact rationals (`ℚ`); the
  transcendental functions of the ambient `Math` object (`sin`, `cos`,
  `sqrt`, `pow`) and the constant `Math.PI` are threaded through a
  `JsMath` record, mirroring the fact that the source calls them as
  ambient functions.  `Math.random()` is modelled as a read from an
  ambient stream `rng : ℕ → ℚ`, consumed in source order.
* Each effect function is translated into a pure function that returns
  the ordered list of 2D-context operations it performs (`CanvasOp`),
  so that drawing behaviour is the trace of context calls.
* The two uploaded bitmaps live in refs and are read by every effect;
  they appear as `Option Image` fields of the ambient `EffectEnv`.
-/

namespace Reels

/-- `CANVAS_WIDTH` from the source. -/
def CANVAS_WIDTH : ℚ := 1080

/-- `CANVAS_HEIGHT` from the source. -/
def CANVAS_HEIGHT : ℚ := 1920

/-- A decoded bitmap: the source only ever reads `img.width` and
`img.height` (inside `drawImage`), so those are the observable fields. -/
structure Image where
  width : ℚ
  height : ℚ
deriving DecidableEq, Repr

/-- The ambient `Math` functions the effects call.  They are parameters
of the model because their exact values are irrational / platform
library facts; every theorem below holds for an arbitrary `JsMath`. -/
structure JsMath where
  sin : ℚ → ℚ
  cos : ℚ → ℚ
  sqrt : ℚ → ℚ
  pow : ℚ → ℚ → ℚ
  pi : ℚ

/-- A CSS color literal as produced by the template strings in the
source (`rgba(...)` / `hsla(...)`), with its numeric parts kept exact. -/
inductive Color where
  | rgba (r g b a : ℚ)
  | hsla (h s l a : ℚ)
deriving DecidableEq, Repr

/-- Values assigned to `ctx.filter` in the source. -/
inductive JsFilter where
  | noFilter
  | blur (px : ℚ)
  | hueRotate (deg : ℚ)
deriving DecidableEq, Repr

/-- One call on the 2D drawing context, in source order.  Gradient
creation (`createLinearGradient` / `createRadialGradient` /
`addColorStop`) and the assignment of the resulting gradient to
`fillStyle` are recorded as the corresponding call sequence.  The
`pixelate` effect's read-back of the live canvas through a temporary
canvas is recorded by `sampleCanvas` (the `tempCtx.drawImage(canvas,…)`
call) and `drawSampledCanvas` (the final stretch-blit back). -/
inductive CanvasOp where
  | save
  | restore
  | clearRect (x y w h : ℚ)
  | fillRect (x y w h : ℚ)
  | setGlobalAlpha (a : ℚ)
  | setCompositeOp (mode : String)
  | setFilter (f : JsFilter)
  | setFillStyle (c : Color)
  | setFillStyleGradient
  | setStrokeStyle (c : Color)
  | setLineWidth (w : ℚ)
  | setImageSmoothing (b : Bool)
  | translate (x y : ℚ)
  | scale (x y : ℚ)
  | rotate (angle : ℚ)
  | beginPath
  | closePath
  | moveTo (x y : ℚ)
  | lineTo (x y : ℚ)
  | rect (x y w h : ℚ)
  | arc (x y r a0 a1 : ℚ)
  | quadraticCurveTo (cx cy x y : ℚ)
  | clip
  | fill
  | stroke
  | drawImg (img : Image) (x y w h : ℚ)
  | drawImgSliced (img : Image) (sx sy sw sh dx dy dw dh : ℚ)
  | createLinearGradient (x0 y0 x1 y1 : ℚ)
  | createRadialGradient (x0 y0 r0 x1 y1 r1 : ℚ)
  | addColorStop (offset : ℚ) (c : Color)
  | sampleCanvas (w h : ℚ)
  | drawSampledCanvas (sw sh dw dh : ℚ)
deriving DecidableEq, Repr

/-- The ambient inputs every effect function reads: the `Math` object,
the `Math.random` stream, the two bitmap refs and the `intensity`
state value captured by the effect closure. -/
structure EffectEnv where
  m : JsMath
  rng : ℕ → ℚ
  beforeImg : Option Image
  afterImg : Option Image
  intensity : ℚ

/-- The helper `drawImage(ctx, img, alpha)`: no-op on a missing image,
otherwise cover-fit the image to the canvas at the given global alpha. -/
def drawImage (img? : Option Image) (alpha : ℚ) : List CanvasOp :=
  match img? with
  | none => []
  | some img =>
    let s := max (CANVAS_WIDTH / img.width) (CANVAS_HEIGHT / img.height)
    let x := (CANVAS_WIDTH - img.width * s) / 2
    let y := (CANVAS_HEIGHT - img.height * s) / 2
    [.save, .setGlobalAlpha alpha, .drawImg img x y (img.width * s) (img.height * s), .restore]

/-- Effect: Shock Zoom (`applyShockZoom`). -/
def applyShockZoom (env : EffectEnv) (t : ℚ) : List CanvasOp :=
  match env.beforeImg, env.afterImg with
  | some beforeImg, some afterImg =>
    .clearRect 0 0 CANVAS_WIDTH CANVAS_HEIGHT ::
    (let zoomPhase := if t < 0.5 then t * 2 else (1 - t) * 2
     let zoom := 1 + zoomPhase * env.intensity * 0.3
     (if t < 0.8 then
        [.save, .translate (CANVAS_WIDTH / 2) (CANVAS_HEIGHT / 2), .scale zoom zoom,
         .translate (-(CANVAS_WIDTH / 2)) (-(CANVAS_HEIGHT / 2))] ++
        drawImage (some beforeImg) (max 0 (1 - t * 1.5)) ++ [.restore]
      else []) ++
     (if t > 0.2 then
        let afterZoom := 1 + (1 - t) * env.intensity * 0.5
        [.save, .translate (CANVAS_WIDTH / 2) (CANVAS_HEIGHT / 2), .scale afterZoom afterZoom,
         .translate (-(CANVAS_WIDTH / 2)) (-(CANVAS_HEIGHT / 2))] ++
        drawImage (some afterImg) (min 1 ((t - 0.2) * 1.5)) ++ [.restore]
      else []))
  | _, _ => []

/-- Effect: RGB Glitch (`applyRGBGlitch`). -/
def applyRGBGlitch (env : EffectEnv) (t : ℚ) : List CanvasOp :=
  match env.beforeImg, env.afterImg with
  | some beforeImg, some afterImg =>
    .clearRect 0 0 CANVAS_WIDTH CANVAS_HEIGHT ::
    (let showBefore := t < 0.5
     drawImage (some (if showBefore then beforeImg else afterImg)) 1 ++
     (let glitchIntensity := env.m.sin (t * env.m.pi) * env.intensity
      if glitchIntensity > 0.1 then
        let offset := glitchIntensity * 20
        [.save, .setCompositeOp "screen", .setGlobalAlpha 0.5, .translate (-offset) 0] ++
        drawImage (some (if showBefore then afterImg else beforeImg)) glitchIntensity ++
        [.restore,
         .save, .setCompositeOp "screen", .setGlobalAlpha 0.5, .translate offset 0] ++
        drawImage (some (if showBefore then afterImg else beforeImg)) glitchIntensity ++
        [.restore]
      else []))
  | _, _ => []

/-- Effect: Fade Cross (`applyFadeCross`). -/
def applyFadeCross (env : EffectEnv) (t : ℚ) : List CanvasOp :=
  match env.beforeImg, env.afterImg with
  | some beforeImg, some afterImg =>
    .clearRect 0 0 CANVAS_WIDTH CANVAS_HEIGHT ::
    (drawImage (some beforeImg) (1 - t) ++ drawImage (some afterImg) t)
  | _, _ => []

/-- Effect: Film Burn (`applyFilmBurn`).  The edge-grain loop at the end
consumes five `Math.random()` values per iteration, in source order:
`angle`, `dist`, `size`, then the two randoms inside the `fillStyle`
template string. -/
def applyFilmBurn (env : EffectEnv) (t : ℚ) : List CanvasOp :=
  match env.beforeImg, env.afterImg with
  | some beforeImg, some afterImg =>
    .clearRect 0 0 CANVAS_WIDTH CANVAS_HEIGHT ::
    (drawImage (some beforeImg) 1 ++
     (let burnProgress := t
      let burnRadius := env.m.sqrt (CANVAS_WIDTH ^ 2 + CANVAS_HEIGHT ^ 2) * burnProgress
      let centerX := CANVAS_WIDTH / 2 + env.m.sin (env.intensity * env.m.pi) * 50 * env.intensity
      let centerY := CANVAS_HEIGHT / 2 + env.m.cos (env.intensity * env.m.pi) * 50 * env.intensity
      [.createRadialGradient centerX centerY (burnRadius * 0.7) centerX centerY burnRadius,
       .addColorStop 0 (.rgba 255 200 100 0),
       .addColorStop 0.5 (.rgba 255 150 50 (env.intensity * 0.3)),
       .addColorStop 1 (.rgba 255 100 0 0),
       .setFillStyleGradient,
       .fillRect 0 0 CANVAS_WIDTH CANVAS_HEIGHT,
       .save, .setCompositeOp "destination-out", .beginPath,
       .arc centerX centerY (burnRadius * 0.9) 0 (env.m.pi * 2), .fill, .restore,
       .save, .beginPath,
       .arc centerX centerY (burnRadius * 0.9) 0 (env.m.pi * 2), .clip] ++
      drawImage (some afterImg) 1 ++ [.restore] ++
      (if burnProgress < 0.95 then
        [.save, .setGlobalAlpha (env.intensity * 0.3)] ++
        (List.range 100).flatMap (fun k =>
          let angle := env.rng (5 * k) * env.m.pi * 2
          let dist := burnRadius * (0.85 + env.rng (5 * k + 1) * 0.15)
          let x := centerX + env.m.cos angle * dist
          let y := centerY + env.m.sin angle * dist
          let size := env.rng (5 * k + 2) * 5 + 2
          [.setFillStyle (.rgba 255 (100 + env.rng (5 * k + 3) * 100) 0 (env.rng (5 * k + 4))),
           .fillRect x y size size]) ++
        [.restore]
      else [])))
  | _, _ => []

/-- Effect: Particle Burst (`applyParticleBurst`).  Each particle's
size consumes one `Math.random()` value (index = particle index). -/
def applyParticleBurst (env : EffectEnv) (t : ℚ) : List CanvasOp :=
  match env.beforeImg, env.afterImg with
  | some beforeImg, some afterImg =>
    .clearRect 0 0 CANVAS_WIDTH CANVAS_HEIGHT ::
    (drawImage (some beforeImg) (max 0 (1 - t)) ++
     drawImage (some afterImg) (min 1 t) ++
     (let particleCount := (⌊(200 : ℚ) * env.intensity⌋).toNat
      let burstPhase := env.m.sin (t * env.m.pi)
      if burstPhase > 0.1 then
        [.save] ++
        (List.range particleCount).flatMap (fun k =>
          let angle := ((k : ℚ) / (particleCount : ℚ)) * env.m.pi * 2 + t * env.m.pi * 0.5
          let distance := burstPhase * (300 + (k : ℚ) * 2) * env.intensity
          let size := (1 - burstPhase) * (8 + env.rng k * 4)
          let x := CANVAS_WIDTH / 2 + env.m.cos angle * distance
          let y := CANVAS_HEIGHT / 2 + env.m.sin angle * distance
          let hue := ((k : ℚ) / (particleCount : ℚ)) * 360
          [.setFillStyle (.hsla hue 80 60 ((1 - burstPhase) * 0.8)),
           .beginPath, .arc x y size 0 (env.m.pi * 2), .fill,
           .createRadialGradient x y 0 x y (size * 2),
           .addColorStop 0 (.hsla hue 80 70 ((1 - burstPhase) * 0.5)),
           .addColorStop 1 (.hsla 0 0 0 0),
           .setFillStyleGradient,
           .beginPath, .arc x y (size * 2) 0 (env.m.pi * 2), .fill]) ++
        [.restore]
      else []))
  | _, _ => []

/-- Effect: Wipe Reveal (`applyWipeReveal`). -/
def applyWipeReveal (env : EffectEnv) (t : ℚ) : List CanvasOp :=
  match env.beforeImg, env.afterImg with
  | some beforeImg, some afterImg =>
    .clearRect 0 0 CANVAS_WIDTH CANVAS_HEIGHT ::
    (drawImage (some beforeImg) 1 ++
     (let wipeX := t * CANVAS_WIDTH
      let edgeWidth := 50 * env.intensity
      [.save, .beginPath, .rect 0 0 wipeX CANVAS_HEIGHT, .clip] ++
      drawImage (some afterImg) 1 ++
      [.restore,
       .createLinearGradient (wipeX - edgeWidth) 0 (wipeX + edgeWidth) 0,
       .addColorStop 0 (.rgba 255 255 255 0),
       .addColorStop 0.5 (.rgba 255 255 255 (env.intensity * 0.8)),
       .addColorStop 1 (.rgba 255 255 255 0),
       .setFillStyleGradient,
       .fillRect (wipeX - edgeWidth) 0 (edgeWidth * 2) CANVAS_HEIGHT,
       .save, .setStrokeStyle (.rgba 255 255 255 (env.intensity * 0.4)), .setLineWidth 3] ++
      (List.range 10).flatMap (fun k =>
        let offset := (k : ℚ) * 30 - 150
        [.beginPath, .moveTo (wipeX + offset) 0, .lineTo (wipeX + offset + 200) CANVAS_HEIGHT,
         .stroke]) ++
      [.restore]))
  | _, _ => []

/-- Effect 6: Vertical Wipe (`applyVerticalWipe`). -/
def applyVerticalWipe (env : EffectEnv) (t : ℚ) : List CanvasOp :=
  match env.beforeImg, env.afterImg with
  | some beforeImg, some afterImg =>
    .clearRect 0 0 CANVAS_WIDTH CANVAS_HEIGHT ::
    (drawImage (some beforeImg) 1 ++
     (let wipeY := t * CANVAS_HEIGHT
      [.save, .beginPath, .rect 0 0 CANVAS_WIDTH wipeY, .clip] ++
      drawImage (some afterImg) 1 ++ [.restore]))
  | _, _ => []

/-- Effect 7: Circular Reveal (`applyCircularReveal`). -/
def applyCircularReveal (env : EffectEnv) (t : ℚ) : List CanvasOp :=
  match env.beforeImg, env.afterImg with
  | some beforeImg, some afterImg =>
    .clearRect 0 0 CANVAS_WIDTH CANVAS_HEIGHT ::
    (drawImage (some beforeImg) 1 ++
     (let maxRadius := env.m.sqrt (CANVAS_WIDTH ^ 2 + CANVAS_HEIGHT ^ 2) / 2
      let radius := t * maxRadius
      [.save, .beginPath, .arc (CANVAS_WIDTH / 2) (CANVAS_HEIGHT / 2) radius 0 (env.m.pi * 2),
       .clip] ++
      drawImage (some afterImg) 1 ++ [.restore]))
  | _, _ => []

/-- Effect 8: Zoom In (`applyZoomIn`). -/
def applyZoomIn (env : EffectEnv) (t : ℚ) : List CanvasOp :=
  match env.beforeImg, env.afterImg with
  | some beforeImg, some afterImg =>
    .clearRect 0 0 CANVAS_WIDTH CANVAS_HEIGHT ::
    (let zoom := 1 + t * env.intensity * 2
     [.save, .translate (CANVAS_WIDTH / 2) (CANVAS_HEIGHT / 2), .scale zoom zoom,
      .translate (-(CANVAS_WIDTH / 2)) (-(CANVAS_HEIGHT / 2))] ++
     drawImage (some beforeImg) (1 - t) ++
     drawImage (some afterImg) t ++ [.restore])
  | _, _ => []

/-- Effect 9: Zoom Out (`applyZoomOut`). -/
def applyZoomOut (env : EffectEnv) (t : ℚ) : List CanvasOp :=
  match env.beforeImg, env.afterImg with
  | some beforeImg, some afterImg =>
    .clearRect 0 0 CANVAS_WIDTH CANVAS_HEIGHT ::
    (let zoom := 2 - t * env.intensity
     [.save, .translate (CANVAS_WIDTH / 2) (CANVAS_HEIGHT / 2), .scale zoom zoom,
      .translate (-(CANVAS_WIDTH / 2)) (-(CANVAS_HEIGHT / 2))] ++
     drawImage (some beforeImg) (1 - t) ++
     drawImage (some afterImg) t ++ [.restore])
  | _, _ => []

/-- Effect 10: Slide Left (`applySlideLeft`). -/
def applySlideLeft (env : EffectEnv) (t : ℚ) : List CanvasOp :=
  match env.beforeImg, env.afterImg with
  | some beforeImg, some afterImg =>
    .clearRect 0 0 CANVAS_WIDTH CANVAS_HEIGHT ::
    (let offset := t * CANVAS_WIDTH
     [.save, .translate (-offset) 0] ++ drawImage (some beforeImg) 1 ++ [.restore,
      .save, .translate (CANVAS_WIDTH - offset) 0] ++ drawImage (some afterImg) 1 ++ [.restore])
  | _, _ => []

/-- Effect 11: Slide Right (`applySlideRight`). -/
def applySlideRight (env : EffectEnv) (t : ℚ) : List CanvasOp :=
  match env.beforeImg, env.afterImg with
  | some beforeImg, some afterImg =>
    .clearRect 0 0 CANVAS_WIDTH CANVAS_HEIGHT ::
    (let offset := t * CANVAS_WIDTH
     [.save, .translate offset 0] ++ drawImage (some beforeImg) 1 ++ [.restore,
      .save, .translate (-CANVAS_WIDTH + offset) 0] ++ drawImage (some afterImg) 1 ++ [.restore])
  | _, _ => []

/-- Effect 12: Slide Up (`applySlideUp`). -/
def applySlideUp (env : EffectEnv) (t : ℚ) : List CanvasOp :=
  match env.beforeImg, env.afterImg with
  | some beforeImg, some afterImg =>
    .clearRect 0 0 CANVAS_WIDTH CANVAS_HEIGHT ::
    (let offset := t * CANVAS_HEIGHT
     [.save, .translate 0 (-offset)] ++ drawImage (some beforeImg) 1 ++ [.restore,
      .save, .translate 0 (CANVAS_HEIGHT - offset)] ++ drawImage (some afterImg) 1 ++ [.restore])
  | _, _ => []

/-- Effect 13: Slide Down (`applySlideDown`). -/
def applySlideDown (env : EffectEnv) (t : ℚ) : List CanvasOp :=
  match env.beforeImg, env.afterImg with
  | some beforeImg, some afterImg =>
    .clearRect 0 0 CANVAS_WIDTH CANVAS_HEIGHT ::
    (let offset := t * CANVAS_HEIGHT
     [.save, .translate 0 offset] ++ drawImage (some beforeImg) 1 ++ [.restore,
      .save, .translate 0 (-CANVAS_HEIGHT + offset)] ++ drawImage (some afterImg) 1 ++ [.restore])
  | _, _ => []

/-- Effect 15: Spin Clockwise (`applySpinClockwise`). -/
def applySpinClockwise (env : EffectEnv) (t : ℚ) : List CanvasOp :=
  match env.beforeImg, env.afterImg with
  | some beforeImg, some afterImg =>
    .clearRect 0 0 CANVAS_WIDTH CANVAS_HEIGHT ::
    ([.save, .translate (CANVAS_WIDTH / 2) (CANVAS_HEIGHT / 2),
      .rotate (t * env.m.pi * 2 * env.intensity),
      .translate (-(CANVAS_WIDTH / 2)) (-(CANVAS_HEIGHT / 2))] ++
     drawImage (some beforeImg) (1 - t) ++ [.restore,
      .save, .translate (CANVAS_WIDTH / 2) (CANVAS_HEIGHT / 2),
      .rotate ((t - 1) * env.m.pi * 2 * env.intensity),
      .translate (-(CANVAS_WIDTH / 2)) (-(CANVAS_HEIGHT / 2))] ++
     drawImage (some afterImg) t ++ [.restore])
  | _, _ => []

/-- Effect 16: Spin Counter-Clockwise (`applySpinCounterClockwise`). -/
def applySpinCounterClockwise (env : EffectEnv) (t : ℚ) : List CanvasOp :=
  match env.beforeImg, env.afterImg with
  | some beforeImg, some afterImg =>
    .clearRect 0 0 CANVAS_WIDTH CANVAS_HEIGHT ::
    ([.save, .translate (CANVAS_WIDTH / 2) (CANVAS_HEIGHT / 2),
      .rotate (-t * env.m.pi * 2 * env.intensity),
      .translate (-(CANVAS_WIDTH / 2)) (-(CANVAS_HEIGHT / 2))] ++
     drawImage (some beforeImg) (1 - t) ++ [.restore,
      .save, .translate (CANVAS_WIDTH / 2) (CANVAS_HEIGHT / 2),
      .rotate (-((t - 1) * env.m.pi * 2 * env.intensity)),
      .translate (-(CANVAS_WIDTH / 2)) (-(CANVAS_HEIGHT / 2))] ++
     drawImage (some afterImg) t ++ [.restore])
  | _, _ => []

/-- Effect 17: Diagonal Wipe (`applyDiagonalWipe`). -/
def applyDiagonalWipe (env : EffectEnv) (t : ℚ) : List CanvasOp :=
  match env.beforeImg, env.afterImg with
  | some beforeImg, some afterImg =>
    .clearRect 0 0 CANVAS_WIDTH CANVAS_HEIGHT ::
    (drawImage (some beforeImg) 1 ++
     [.save, .beginPath, .moveTo 0 0,
      .lineTo (t * (CANVAS_WIDTH + CANVAS_HEIGHT)) 0,
      .lineTo 0 (t * (CANVAS_WIDTH + CANVAS_HEIGHT)),
      .closePath, .clip] ++
     drawImage (some afterImg) 1 ++ [.restore])
  | _, _ => []

/-- Effect 18: Box Expand (`applyBoxExpand`). -/
def applyBoxExpand (env : EffectEnv) (t : ℚ) : List CanvasOp :=
  match env.beforeImg, env.afterImg with
  | some beforeImg, some afterImg =>
    .clearRect 0 0 CANVAS_WIDTH CANVAS_HEIGHT ::
    (drawImage (some beforeImg) 1 ++
     (let width := t * CANVAS_WIDTH
      let height := t * CANVAS_HEIGHT
      let x := (CANVAS_WIDTH - width) / 2
      let y := (CANVAS_HEIGHT - height) / 2
      [.save, .beginPath, .rect x y width height, .clip] ++
      drawImage (some afterImg) 1 ++ [.restore]))
  | _, _ => []

/-- Effect 19: Pixelate (`applyPixelate`).  The temporary-canvas
read-back of the live canvas is recorded as `sampleCanvas` followed by
`drawSampledCanvas`. -/
def applyPixelate (env : EffectEnv) (t : ℚ) : List CanvasOp :=
  match env.beforeImg, env.afterImg with
  | some beforeImg, some afterImg =>
    .clearRect 0 0 CANVAS_WIDTH CANVAS_HEIGHT ::
    (let pixelSize := max 1 ((⌊(1 - |t * 2 - 1|) * 100 * env.intensity⌋ : ℤ) : ℚ)
     if t < 0.5 then
       drawImage (some beforeImg) 1 ++
       (if pixelSize > 1 then
          let w := ((⌊CANVAS_WIDTH / pixelSize⌋ : ℤ) : ℚ)
          let h := ((⌊CANVAS_HEIGHT / pixelSize⌋ : ℤ) : ℚ)
          [.setImageSmoothing false, .sampleCanvas w h,
           .drawSampledCanvas w h CANVAS_WIDTH CANVAS_HEIGHT, .setImageSmoothing true]
        else [])
     else
       drawImage (some afterImg) 1 ++
       (if pixelSize > 1 then
          let w := ((⌊CANVAS_WIDTH / pixelSize⌋ : ℤ) : ℚ)
          let h := ((⌊CANVAS_HEIGHT / pixelSize⌋ : ℤ) : ℚ)
          [.setImageSmoothing false, .sampleCanvas w h,
           .drawSampledCanvas w h CANVAS_WIDTH CANVAS_HEIGHT, .setImageSmoothing true]
        else []))
  | _, _ => []

/-- Effect 20: Blur Transition (`applyBlurTransition`). -/
def applyBlurTransition (env : EffectEnv) (t : ℚ) : List CanvasOp :=
  match env.beforeImg, env.afterImg with
  | some beforeImg, some afterImg =>
    .clearRect 0 0 CANVAS_WIDTH CANVAS_HEIGHT ::
    (let blurAmount := env.m.sin (t * env.m.pi) * 20 * env.intensity
     .setFilter (.blur blurAmount) ::
     (drawImage (some beforeImg) (1 - t) ++ drawImage (some afterImg) t ++
      [.setFilter .noFilter]))
  | _, _ => []

/-- Effect 21: Wave Distortion (`applyWaveDistortion`); the source loops
`y = 0, 2, 4, …` below `CANVAS_HEIGHT`, i.e. 960 iterations. -/
def applyWaveDistortion (env : EffectEnv) (t : ℚ) : List CanvasOp :=
  match env.beforeImg, env.afterImg with
  | some beforeImg, some afterImg =>
    .clearRect 0 0 CANVAS_WIDTH CANVAS_HEIGHT ::
    (let amplitude := 30 * env.intensity
     let frequency : ℚ := 10
     (List.range 960).flatMap (fun k =>
       let y : ℚ := 2 * k
       let offset := env.m.sin ((y / CANVAS_HEIGHT) * frequency + t * env.m.pi * 2) * amplitude
       [.save, .beginPath, .rect 0 y CANVAS_WIDTH 2, .clip, .translate offset 0] ++
       drawImage (some (if t < 0.5 then beforeImg else afterImg)) 1 ++ [.restore]))
  | _, _ => []

/-- Effect 22: Ripple (`applyRipple`). -/
def applyRipple (env : EffectEnv) (t : ℚ) : List CanvasOp :=
  match env.beforeImg, env.afterImg with
  | some beforeImg, some afterImg =>
    .clearRect 0 0 CANVAS_WIDTH CANVAS_HEIGHT ::
    (drawImage (some beforeImg) (1 - t) ++ drawImage (some afterImg) t ++
     (let centerX := CANVAS_WIDTH / 2
      let centerY := CANVAS_HEIGHT / 2
      let maxRadius := env.m.sqrt (CANVAS_WIDTH ^ 2 + CANVAS_HEIGHT ^ 2) / 2
      let rippleRadius := t * maxRadius
      (List.range 5).flatMap (fun k =>
        let r := rippleRadius - (k : ℚ) * 50
        if r > 0 then
          [.beginPath, .arc centerX centerY r 0 (env.m.pi * 2),
           .setStrokeStyle (.rgba 255 255 255 ((1 - (k : ℚ) / 5) * env.intensity * 0.5)),
           .setLineWidth 3, .stroke]
        else [])))
  | _, _ => []

/-- Effect 23: Split Horizontal (`applySplitHorizontal`). -/
def applySplitHorizontal (env : EffectEnv) (t : ℚ) : List CanvasOp :=
  match env.beforeImg, env.afterImg with
  | some beforeImg, some afterImg =>
    .clearRect 0 0 CANVAS_WIDTH CANVAS_HEIGHT ::
    (let split := t * CANVAS_HEIGHT / 2
     [.save, .translate 0 (-split), .beginPath,
      .rect 0 0 CANVAS_WIDTH (CANVAS_HEIGHT / 2), .clip] ++
     drawImage (some beforeImg) 1 ++ [.restore,
      .save, .translate 0 split, .beginPath,
      .rect 0 (CANVAS_HEIGHT / 2) CANVAS_WIDTH (CANVAS_HEIGHT / 2), .clip] ++
     drawImage (some beforeImg) 1 ++ [.restore] ++
     drawImage (some afterImg) t)
  | _, _ => []

/-- Effect 24: Split Vertical (`applySplitVertical`). -/
def applySplitVertical (env : EffectEnv) (t : ℚ) : List CanvasOp :=
  match env.beforeImg, env.afterImg with
  | some beforeImg, some afterImg =>
    .clearRect 0 0 CANVAS_WIDTH CANVAS_HEIGHT ::
    (let split := t * CANVAS_WIDTH / 2
     [.save, .translate (-split) 0, .beginPath,
      .rect 0 0 (CANVAS_WIDTH / 2) CANVAS_HEIGHT, .clip] ++
     drawImage (some beforeImg) 1 ++ [.restore,
      .save, .translate split 0, .beginPath,
      .rect (CANVAS_WIDTH / 2) 0 (CANVAS_WIDTH / 2) CANVAS_HEIGHT, .clip] ++
     drawImage (some beforeImg) 1 ++ [.restore] ++
     drawImage (some afterImg) t)
  | _, _ => []

/-- Effect 25: Flip Horizontal (`applyFlipHorizontal`). -/
def applyFlipHorizontal (env : EffectEnv) (t : ℚ) : List CanvasOp :=
  match env.beforeImg, env.afterImg with
  | some beforeImg, some afterImg =>
    .clearRect 0 0 CANVAS_WIDTH CANVAS_HEIGHT ::
    ([.save, .translate (CANVAS_WIDTH / 2) 0, .scale (env.m.cos (t * env.m.pi)) 1,
      .translate (-(CANVAS_WIDTH / 2)) 0] ++
     drawImage (some (if t < 0.5 then beforeImg else afterImg)) 1 ++ [.restore])
  | _, _ => []

/-- Effect 26: Flip Vertical (`applyFlipVertical`). -/
def applyFlipVertical (env : EffectEnv) (t : ℚ) : List CanvasOp :=
  match env.beforeImg, env.afterImg with
  | some beforeImg, some afterImg =>
    .clearRect 0 0 CANVAS_WIDTH CANVAS_HEIGHT ::
    ([.save, .translate 0 (CANVAS_HEIGHT / 2), .scale 1 (env.m.cos (t * env.m.pi)),
      .translate 0 (-(CANVAS_HEIGHT / 2))] ++
     drawImage (some (if t < 0.5 then beforeImg else afterImg)) 1 ++ [.restore])
  | _, _ => []

/-- Effect 27: Checkerboard (`applyCheckerboard`). -/
def applyCheckerboard (env : EffectEnv) (t : ℚ) : List CanvasOp :=
  match env.beforeImg, env.afterImg with
  | some beforeImg, some afterImg =>
    .clearRect 0 0 CANVAS_WIDTH CANVAS_HEIGHT ::
    (drawImage (some beforeImg) 1 ++
     (let gridSize : ℕ := 10
      let cellWidth := CANVAS_WIDTH / (gridSize : ℚ)
      let cellHeight := CANVAS_HEIGHT / (gridSize : ℚ)
      (List.range gridSize).flatMap (fun i =>
        (List.range gridSize).flatMap (fun j =>
          if (i + j) % 2 = 0 then
            let delay := (((i : ℚ) + (j : ℚ)) / ((gridSize : ℚ) * 2)) * 0.5
            let cellT := max 0 (min 1 ((t - delay) * 2))
            if cellT > 0 then
              [.save, .beginPath,
               .rect ((i : ℚ) * cellWidth) ((j : ℚ) * cellHeight) cellWidth cellHeight,
               .clip] ++
              drawImage (some afterImg) cellT ++ [.restore]
            else []
          else []))))
  | _, _ => []

/-- Effect 28: Random Blocks (`applyRandomBlocks`); per-cell stagger
comes from the deterministic sine hash of the cell index, not from
`Math.random`. -/
def applyRandomBlocks (env : EffectEnv) (t : ℚ) : List CanvasOp :=
  match env.beforeImg, env.afterImg with
  | some beforeImg, some afterImg =>
    .clearRect 0 0 CANVAS_WIDTH CANVAS_HEIGHT ::
    (drawImage (some beforeImg) 1 ++
     (let gridSize : ℕ := 15
      let cellWidth := CANVAS_WIDTH / (gridSize : ℚ)
      let cellHeight := CANVAS_HEIGHT / (gridSize : ℚ)
      (List.range gridSize).flatMap (fun i =>
        (List.range gridSize).flatMap (fun j =>
          let random := (env.m.sin ((i : ℚ) * 12.9898 + (j : ℚ) * 78.233) + 1) / 2
          let delay := random * 0.5
          let cellT := max 0 (min 1 ((t - delay) * 2))
          if cellT > 0 then
            [.save, .beginPath,
             .rect ((i : ℚ) * cellWidth) ((j : ℚ) * cellHeight) cellWidth cellHeight,
             .clip] ++
            drawImage (some afterImg) cellT ++ [.restore]
          else []))))
  | _, _ => []

/-- Effect 29: Venetian Blinds (`applyVenetianBlinds`). -/
def applyVenetianBlinds (env : EffectEnv) (t : ℚ) : List CanvasOp :=
  match env.beforeImg, env.afterImg with
  | some beforeImg, some afterImg =>
    .clearRect 0 0 CANVAS_WIDTH CANVAS_HEIGHT ::
    (drawImage (some beforeImg) 1 ++
     (let blindCount : ℕ := 20
      let blindHeight := CANVAS_HEIGHT / (blindCount : ℚ)
      (List.range blindCount).flatMap (fun i =>
        [.save, .beginPath, .rect 0 ((i : ℚ) * blindHeight) (CANVAS_WIDTH * t) blindHeight,
         .clip] ++
        drawImage (some afterImg) 1 ++ [.restore])))
  | _, _ => []

/-- Effect 30: Swirl (`applySwirl`). -/
def applySwirl (env : EffectEnv) (t : ℚ) : List CanvasOp :=
  match env.beforeImg, env.afterImg with
  | some beforeImg, some afterImg =>
    .clearRect 0 0 CANVAS_WIDTH CANVAS_HEIGHT ::
    ([.save, .translate (CANVAS_WIDTH / 2) (CANVAS_HEIGHT / 2),
      .rotate (t * env.m.pi * 4 * env.intensity),
      .scale (1 - t * 0.5) (1 - t * 0.5),
      .translate (-(CANVAS_WIDTH / 2)) (-(CANVAS_HEIGHT / 2))] ++
     drawImage (some beforeImg) (1 - t) ++ [.restore,
      .save, .translate (CANVAS_WIDTH / 2) (CANVAS_HEIGHT / 2),
      .rotate ((t - 1) * env.m.pi * 4 * env.intensity),
      .scale (0.5 + t * 0.5) (0.5 + t * 0.5),
      .translate (-(CANVAS_WIDTH / 2)) (-(CANVAS_HEIGHT / 2))] ++
     drawImage (some afterImg) t ++ [.restore])
  | _, _ => []

/-- Effect 31: Diamond Reveal (`applyDiamondReveal`). -/
def applyDiamondReveal (env : EffectEnv) (t : ℚ) : List CanvasOp :=
  match env.beforeImg, env.afterImg with
  | some beforeImg, some afterImg =>
    .clearRect 0 0 CANVAS_WIDTH CANVAS_HEIGHT ::
    (drawImage (some beforeImg) 1 ++
     (let size := t * (CANVAS_WIDTH + CANVAS_HEIGHT)
      [.save, .beginPath,
       .moveTo (CANVAS_WIDTH / 2) (CANVAS_HEIGHT / 2 - size / 2),
       .lineTo (CANVAS_WIDTH / 2 + size / 2) (CANVAS_HEIGHT / 2),
       .lineTo (CANVAS_WIDTH / 2) (CANVAS_HEIGHT / 2 + size / 2),
       .lineTo (CANVAS_WIDTH / 2 - size / 2) (CANVAS_HEIGHT / 2),
       .closePath, .clip] ++
      drawImage (some afterImg) 1 ++ [.restore]))
  | _, _ => []

/-- Effect 32: Bounce In (`applyBounceIn`). -/
def applyBounceIn (env : EffectEnv) (t : ℚ) : List CanvasOp :=
  match env.beforeImg, env.afterImg with
  | some beforeImg, some afterImg =>
    .clearRect 0 0 CANVAS_WIDTH CANVAS_HEIGHT ::
    (drawImage (some beforeImg) (1 - t) ++
     (let bounce := if t < 0.5 then 2 * t * t else 1 - (-2 * t + 2) ^ 2 / 2
      let scale := bounce
      [.save, .translate (CANVAS_WIDTH / 2) (CANVAS_HEIGHT / 2), .scale scale scale,
       .translate (-(CANVAS_WIDTH / 2)) (-(CANVAS_HEIGHT / 2))] ++
      drawImage (some afterImg) t ++ [.restore]))
  | _, _ => []

/-- Effect 33: Elastic (`applyElastic`). -/
def applyElastic (env : EffectEnv) (t : ℚ) : List CanvasOp :=
  match env.beforeImg, env.afterImg with
  | some beforeImg, some afterImg =>
    .clearRect 0 0 CANVAS_WIDTH CANVAS_HEIGHT ::
    (let elastic :=
       if t = 0 then 0
       else if t = 1 then 1
       else env.m.pow 2 (-10 * t) * env.m.sin ((t * 10 - 0.75) * (2 * env.m.pi) / 3) + 1
     drawImage (some beforeImg) (1 - elastic) ++ drawImage (some afterImg) elastic)
  | _, _ => []

/-- Effect 34: Page Curl (`applyPageCurl`). -/
def applyPageCurl (env : EffectEnv) (t : ℚ) : List CanvasOp :=
  match env.beforeImg, env.afterImg with
  | some beforeImg, some afterImg =>
    .clearRect 0 0 CANVAS_WIDTH CANVAS_HEIGHT ::
    (drawImage (some afterImg) 1 ++
     (let curlWidth := (1 - t) * CANVAS_WIDTH
      let curlAmount := env.intensity * 200
      [.save, .beginPath,
       .moveTo (CANVAS_WIDTH - curlWidth) 0,
       .quadraticCurveTo (CANVAS_WIDTH - curlWidth / 2) curlAmount CANVAS_WIDTH 0,
       .lineTo CANVAS_WIDTH CANVAS_HEIGHT,
       .quadraticCurveTo (CANVAS_WIDTH - curlWidth / 2) (CANVAS_HEIGHT - curlAmount)
         (CANVAS_WIDTH - curlWidth) CANVAS_HEIGHT,
       .closePath, .clip] ++
      drawImage (some beforeImg) 1 ++ [.restore]))
  | _, _ => []

/-- Effect 35: Kaleidoscope (`applyKaleidoscope`). -/
def applyKaleidoscope (env : EffectEnv) (t : ℚ) : List CanvasOp :=
  match env.beforeImg, env.afterImg with
  | some beforeImg, some afterImg =>
    .clearRect 0 0 CANVAS_WIDTH CANVAS_HEIGHT ::
    (let segments : ℕ := 8
     (List.range segments).flatMap (fun i =>
       [.save, .translate (CANVAS_WIDTH / 2) (CANVAS_HEIGHT / 2),
        .rotate (((i : ℚ) * env.m.pi * 2) / (segments : ℚ) + t * env.m.pi * 2),
        .scale t t,
        .translate (-(CANVAS_WIDTH / 2)) (-(CANVAS_HEIGHT / 2))] ++
       drawImage (some (if t < 0.5 then beforeImg else afterImg)) (1 / (segments : ℚ)) ++
       [.restore]))
  | _, _ => []

/-- Effect 36: Color Shift (`applyColorShift`). -/
def applyColorShift (env : EffectEnv) (t : ℚ) : List CanvasOp :=
  match env.beforeImg, env.afterImg with
  | some beforeImg, some afterImg =>
    .clearRect 0 0 CANVAS_WIDTH CANVAS_HEIGHT ::
    (let hueRotate := t * 180 * env.intensity
     .setFilter (.hueRotate hueRotate) ::
     (drawImage (some beforeImg) (1 - t) ++
      [.setFilter .noFilter] ++
      drawImage (some afterImg) t))
  | _, _ => []

/-- Effect 37: Gradient Wipe (`applyGradientWipe`). -/
def applyGradientWipe (env : EffectEnv) (t : ℚ) : List CanvasOp :=
  match env.beforeImg, env.afterImg with
  | some beforeImg, some afterImg =>
    .clearRect 0 0 CANVAS_WIDTH CANVAS_HEIGHT ::
    (drawImage (some beforeImg) 1 ++
     (let progress := t * 2
      [.createLinearGradient 0 0 CANVAS_WIDTH CANVAS_HEIGHT,
       .addColorStop (max 0 (progress - 1)) (.rgba 0 0 0 1),
       .addColorStop (min 1 progress) (.rgba 0 0 0 0),
       .save, .setCompositeOp "destination-out", .setFillStyleGradient,
       .fillRect 0 0 CANVAS_WIDTH CANVAS_HEIGHT, .restore,
       .setCompositeOp "destination-over"] ++
      drawImage (some afterImg) 1 ++
      [.setCompositeOp "source-over"]))
  | _, _ => []

/-- Effect 38: Zoom Blur (`applyZoomBlur`). -/
def applyZoomBlur (env : EffectEnv) (t : ℚ) : List CanvasOp :=
  match env.beforeImg, env.afterImg with
  | some beforeImg, some afterImg =>
    .clearRect 0 0 CANVAS_WIDTH CANVAS_HEIGHT ::
    (let steps : ℕ := 10
     let maxScale := 1 + env.intensity * 0.5
     (List.range steps).flatMap (fun i =>
       let stepT := (i : ℚ) / (steps : ℚ)
       let alpha := (1 - stepT) * 0.1
       let scale := 1 + stepT * (maxScale - 1) * env.m.sin (t * env.m.pi)
       [.save, .setGlobalAlpha alpha,
        .translate (CANVAS_WIDTH / 2) (CANVAS_HEIGHT / 2),
        .scale scale scale,
        .translate (-(CANVAS_WIDTH / 2)) (-(CANVAS_HEIGHT / 2))] ++
       drawImage (some (if t < 0.5 then beforeImg else afterImg)) 1 ++ [.restore]) ++
     drawImage (some (if t < 0.5 then beforeImg else afterImg)) 1)
  | _, _ => []

/-- Effect 39: Shatter (`applyShatter`); per-piece offsets come from the
deterministic sine hash of the piece index (explicit source comment),
and the pieces of the BEFORE image are blitted directly with the 9-arg
`ctx.drawImage`. -/
def applyShatter (env : EffectEnv) (t : ℚ) : List CanvasOp :=
  match env.beforeImg, env.afterImg with
  | some beforeImg, some afterImg =>
    .clearRect 0 0 CANVAS_WIDTH CANVAS_HEIGHT ::
    (drawImage (some afterImg) 1 ++
     (let pieces : ℕ := 20
      (List.range pieces).flatMap (fun i =>
        let x := ((i % 5 : ℕ) : ℚ) * (CANVAS_WIDTH / 5)
        let y := ((i / 5 : ℕ) : ℚ) * (CANVAS_HEIGHT / 4)
        let w := CANVAS_WIDTH / 5
        let h := CANVAS_HEIGHT / 4
        let seedX := env.m.sin ((i : ℚ) * 12.9898) * 0.5
        let seedY := env.m.sin ((i : ℚ) * 78.233) * 0.5
        let seedRot := env.m.sin ((i : ℚ) * 43758.5453) * 0.5
        let offsetX := seedX * 200 * t * env.intensity
        let offsetY := seedY * 200 * t * env.intensity
        let rotation := seedRot * env.m.pi * t
        [.save, .translate (x + w / 2 + offsetX) (y + h / 2 + offsetY), .rotate rotation,
         .setGlobalAlpha (1 - t),
         .drawImgSliced beforeImg x y w h (-(w / 2)) (-(h / 2)) w h,
         .restore])))
  | _, _ => []

/-- Effect 40: Radial Wipe (`applyRadialWipe`). -/
def applyRadialWipe (env : EffectEnv) (t : ℚ) : List CanvasOp :=
  match env.beforeImg, env.afterImg with
  | some beforeImg, some afterImg =>
    .clearRect 0 0 CANVAS_WIDTH CANVAS_HEIGHT ::
    (drawImage (some beforeImg) 1 ++
     (let angle := t * env.m.pi * 2
      [.save, .beginPath, .moveTo (CANVAS_WIDTH / 2) (CANVAS_HEIGHT / 2),
       .arc (CANVAS_WIDTH / 2) (CANVAS_HEIGHT / 2) (max CANVAS_WIDTH CANVAS_HEIGHT)
         (-(env.m.pi / 2)) (-(env.m.pi / 2) + angle),
       .closePath, .clip] ++
      drawImage (some afterImg) 1 ++ [.restore]))
  | _, _ => []

/-- Effect 41: Door Swing (`applyDoorSwing`). -/
def applyDoorSwing (env : EffectEnv) (t : ℚ) : List CanvasOp :=
  match env.beforeImg, env.afterImg with
  | some beforeImg, some afterImg =>
    .clearRect 0 0 CANVAS_WIDTH CANVAS_HEIGHT ::
    (drawImage (some afterImg) 1 ++
     ([.save, .translate 0 (CANVAS_HEIGHT / 2), .scale (env.m.cos (t * env.m.pi / 2)) 1,
       .translate 0 (-(CANVAS_HEIGHT / 2))] ++
      (if t < 1 then drawImage (some beforeImg) 1 else []) ++
      [.restore]))
  | _, _ => []

/-- Effect 42: Twist (`applyTwist`). -/
def applyTwist (env : EffectEnv) (t : ℚ) : List CanvasOp :=
  match env.beforeImg, env.afterImg with
  | some beforeImg, some afterImg =>
    .clearRect 0 0 CANVAS_WIDTH CANVAS_HEIGHT ::
    (let slices : ℕ := 50
     let sliceHeight := CANVAS_HEIGHT / (slices : ℚ)
     (List.range slices).flatMap (fun i =>
       let y := (i : ℚ) * sliceHeight
       let rotation := ((i : ℚ) / (slices : ℚ) - 0.5) * t * env.m.pi * env.intensity
       [.save, .translate (CANVAS_WIDTH / 2) (y + sliceHeight / 2), .rotate rotation,
        .translate (-(CANVAS_WIDTH / 2)) (-(y + sliceHeight / 2)),
        .beginPath, .rect 0 y CANVAS_WIDTH sliceHeight, .clip] ++
       drawImage (some (if t < 0.5 then beforeImg else afterImg)) 1 ++ [.restore]))
  | _, _ => []

/-- Effect 43: Fold (`applyFold`). -/
def applyFold (env : EffectEnv) (t : ℚ) : List CanvasOp :=
  match env.beforeImg, env.afterImg with
  | some beforeImg, some afterImg =>
    .clearRect 0 0 CANVAS_WIDTH CANVAS_HEIGHT ::
    (let foldT := if t < 0.5 then t * 2 else 1
     let unfoldT := if t ≥ 0.5 then (t - 0.5) * 2 else 0
     [.save, .translate (CANVAS_WIDTH / 2) 0, .scale (1 - foldT) 1,
      .translate (-(CANVAS_WIDTH / 2)) 0] ++
     drawImage (some beforeImg) 1 ++ [.restore] ++
     (if unfoldT > 0 then
        [.save, .translate (CANVAS_WIDTH / 2) 0, .scale unfoldT 1,
         .translate (-(CANVAS_WIDTH / 2)) 0] ++
        drawImage (some afterImg) 1 ++ [.restore]
      else []))
  | _, _ => []

/-- Effect 44: Star Burst (`applyStarBurst`). -/
def applyStarBurst (env : EffectEnv) (t : ℚ) : List CanvasOp :=
  match env.beforeImg, env.afterImg with
  | some beforeImg, some afterImg =>
    .clearRect 0 0 CANVAS_WIDTH CANVAS_HEIGHT ::
    (drawImage (some beforeImg) (1 - t) ++
     (let points : ℕ := 12
      let innerRadius := t * CANVAS_WIDTH * 0.3
      let outerRadius := t * CANVAS_WIDTH * 0.6
      [.save, .translate (CANVAS_WIDTH / 2) (CANVAS_HEIGHT / 2)] ++
      (List.range (points * 2)).flatMap (fun i =>
        let angle := ((i : ℚ) * env.m.pi) / (points : ℚ)
        let radius := if i % 2 = 0 then outerRadius else innerRadius
        let x := env.m.cos angle * radius
        let y := env.m.sin angle * radius
        [.setFillStyle (.hsla (((i : ℚ) / (points : ℚ)) * 360) 80 60 (t * 0.7)),
         .beginPath, .arc x y 20 0 (env.m.pi * 2), .fill]) ++
      [.restore] ++
      drawImage (some afterImg) t))
  | _, _ => []

/-- Effect 45: Liquid (`applyLiquid`). -/
def applyLiquid (env : EffectEnv) (t : ℚ) : List CanvasOp :=
  match env.beforeImg, env.afterImg with
  | some beforeImg, some afterImg =>
    .clearRect 0 0 CANVAS_WIDTH CANVAS_HEIGHT ::
    (let rows : ℕ := 20
     let rowHeight := CANVAS_HEIGHT / (rows : ℚ)
     (List.range rows).flatMap (fun i =>
       let y := (i : ℚ) * rowHeight
       let offset := env.m.sin (t * env.m.pi * 2 + (i : ℚ) * 0.5) * 50 * env.intensity
       [.save, .beginPath, .rect 0 y CANVAS_WIDTH rowHeight, .clip, .translate offset 0] ++
       drawImage (some (if t < 0.5 then beforeImg else afterImg)) 1 ++ [.restore]))
  | _, _ => []

/-- Effect 46: Cube Rotate (`applyCubeRotate`). -/
def applyCubeRotate (env : EffectEnv) (t : ℚ) : List CanvasOp :=
  match env.beforeImg, env.afterImg with
  | some beforeImg, some afterImg =>
    .clearRect 0 0 CANVAS_WIDTH CANVAS_HEIGHT ::
    (let angle := t * env.m.pi
     let scale := |env.m.cos angle|
     [.save, .translate (CANVAS_WIDTH / 2) (CANVAS_HEIGHT / 2), .scale scale 1,
      .translate (-(CANVAS_WIDTH / 2)) (-(CANVAS_HEIGHT / 2))] ++
     drawImage (some (if env.m.cos angle > 0 then beforeImg else afterImg)) 1 ++
     [.restore])
  | _, _ => []

/-- Effect 47: Morph (`applyMorph`). -/
def applyMorph (env : EffectEnv) (t : ℚ) : List CanvasOp :=
  match env.beforeImg, env.afterImg with
  | some beforeImg, some afterImg =>
    .clearRect 0 0 CANVAS_WIDTH CANVAS_HEIGHT ::
    (let morphAmount := env.m.sin (t * env.m.pi) * env.intensity * 50
     [.save, .translate (CANVAS_WIDTH / 2) (CANVAS_HEIGHT / 2),
      .scale (1 + morphAmount / CANVAS_WIDTH) (1 + morphAmount / CANVAS_HEIGHT),
      .translate (-(CANVAS_WIDTH / 2)) (-(CANVAS_HEIGHT / 2))] ++
     drawImage (some beforeImg) (1 - t) ++ [.restore,
      .save, .translate (CANVAS_WIDTH / 2) (CANVAS_HEIGHT / 2),
      .scale (1 - morphAmount / CANVAS_WIDTH) (1 - morphAmount / CANVAS_HEIGHT),
      .translate (-(CANVAS_WIDTH / 2)) (-(CANVAS_HEIGHT / 2))] ++
     drawImage (some afterImg) t ++ [.restore])
  | _, _ => []

/-- Effect 48: Grid Flip (`applyGridFlip`). -/
def applyGridFlip (env : EffectEnv) (t : ℚ) : List CanvasOp :=
  match env.beforeImg, env.afterImg with
  | some beforeImg, some afterImg =>
    .clearRect 0 0 CANVAS_WIDTH CANVAS_HEIGHT ::
    (let gridSize : ℕ := 5
     let cellWidth := CANVAS_WIDTH / (gridSize : ℚ)
     let cellHeight := CANVAS_HEIGHT / (gridSize : ℚ)
     (List.range gridSize).flatMap (fun i =>
       (List.range gridSize).flatMap (fun j =>
         let cellT := max 0 (min 1 ((t - ((i : ℚ) + (j : ℚ)) / ((gridSize : ℚ) * 2) * 0.5) * 2))
         let angle := cellT * env.m.pi
         [.save,
          .translate ((i : ℚ) * cellWidth + cellWidth / 2) ((j : ℚ) * cellHeight + cellHeight / 2),
          .scale (env.m.cos angle) 1,
          .translate (-((i : ℚ) * cellWidth + cellWidth / 2))
            (-((j : ℚ) * cellHeight + cellHeight / 2)),
          .beginPath, .rect ((i : ℚ) * cellWidth) ((j : ℚ) * cellHeight) cellWidth cellHeight,
          .clip] ++
         drawImage (some (if env.m.cos angle > 0 then beforeImg else afterImg)) 1 ++
         [.restore])))
  | _, _ => []

/-- Effect 49: Spotlight (`applySpotlight`). -/
def applySpotlight (env : EffectEnv) (t : ℚ) : List CanvasOp :=
  match env.beforeImg, env.afterImg with
  | some beforeImg, some afterImg =>
    .clearRect 0 0 CANVAS_WIDTH CANVAS_HEIGHT ::
    (drawImage (some beforeImg) 1 ++
     (let radius := t * env.m.sqrt (CANVAS_WIDTH ^ 2 + CANVAS_HEIGHT ^ 2) / 2
      let x := CANVAS_WIDTH / 2
      let y := CANVAS_HEIGHT / 2
      [.save, .beginPath, .arc x y radius 0 (env.m.pi * 2), .clip] ++
      drawImage (some afterImg) 1 ++
      [.createRadialGradient x y (radius * 0.7) x y radius,
       .addColorStop 0 (.rgba 255 255 255 0),
       .addColorStop 1 (.rgba 255 255 255 (env.intensity * 0.3)),
       .setFillStyleGradient,
       .fillRect 0 0 CANVAS_WIDTH CANVAS_HEIGHT,
       .restore]))
  | _, _ => []

/-- Effect 50: Vortex (`applyVortex`). -/
def applyVortex (env : EffectEnv) (t : ℚ) : List CanvasOp :=
  match env.beforeImg, env.afterImg with
  | some beforeImg, some afterImg =>
    .clearRect 0 0 CANVAS_WIDTH CANVAS_HEIGHT ::
    (let segments : ℕ := 30
     (List.range segments).flatMap (fun i =>
       let segmentT := (i : ℚ) / (segments : ℚ)
       let rotation := t * env.m.pi * 6 * env.intensity * (1 - segmentT)
       let scale := 1 - t * segmentT
       [.save, .setGlobalAlpha ((1 - segmentT) * 0.3),
        .translate (CANVAS_WIDTH / 2) (CANVAS_HEIGHT / 2),
        .rotate rotation, .scale scale scale,
        .translate (-(CANVAS_WIDTH / 2)) (-(CANVAS_HEIGHT / 2))] ++
       drawImage (some beforeImg) 1 ++ [.restore]) ++
     drawImage (some afterImg) t)
  | _, _ => []

/-- The closed set of effect functions the `switch` in
`getEffectFunction` can return, one tag per `case`. -/
inductive EffectKind where
  | shockZoom | rgbGlitch | filmBurn | particleBurst | wipeReveal
  | verticalWipe | circularReveal | zoomIn | zoomOut | slideLeft
  | slideRight | slideUp | slideDown | fadeCross | spinClockwise
  | spinCounterClockwise | diagonalWipe | boxExpand | pixelate | blurTransition
  | waveDistortion | ripple | splitHorizontal | splitVertical | flipHorizontal
  | flipVertical | checkerboard | randomBlocks | venetianBlinds | swirl
  | diamondReveal | bounceIn | elastic | pageCurl | kaleidoscope
  | colorShift | gradientWipe | zoomBlur | shatter | radialWipe
  | doorSwing | twist | fold | starBurst | liquid
  | cubeRotate | morph | gridFlip | spotlight | vortex
deriving DecidableEq, Repr

/-- Applies the effect function a given tag stands for. -/
def runEffect : EffectKind → EffectEnv → ℚ → List CanvasOp
  | .shockZoom => applyShockZoom
  | .rgbGlitch => applyRGBGlitch
  | .filmBurn => applyFilmBurn
  | .particleBurst => applyParticleBurst
  | .wipeReveal => applyWipeReveal
  | .verticalWipe => applyVerticalWipe
  | .circularReveal => applyCircularReveal
  | .zoomIn => applyZoomIn
  | .zoomOut => applyZoomOut
  | .slideLeft => applySlideLeft
  | .slideRight => applySlideRight
  | .slideUp => applySlideUp
  | .slideDown => applySlideDown
  | .fadeCross => applyFadeCross
  | .spinClockwise => applySpinClockwise
  | .spinCounterClockwise => applySpinCounterClockwise
  | .diagonalWipe => applyDiagonalWipe
  | .boxExpand => applyBoxExpand
  | .pixelate => applyPixelate
  | .blurTransition => applyBlurTransition
  | .waveDistortion => applyWaveDistortion
  | .ripple => applyRipple
  | .splitHorizontal => applySplitHorizontal
  | .splitVertical => applySplitVertical
  | .flipHorizontal => applyFlipHorizontal
  | .flipVertical => applyFlipVertical
  | .checkerboard => applyCheckerboard
  | .randomBlocks => applyRandomBlocks
  | .venetianBlinds => applyVenetianBlinds
  | .swirl => applySwirl
  | .diamondReveal => applyDiamondReveal
  | .bounceIn => applyBounceIn
  | .elastic => applyElastic
  | .pageCurl => applyPageCurl
  | .kaleidoscope => applyKaleidoscope
  | .colorShift => applyColorShift
  | .gradientWipe => applyGradientWipe
  | .zoomBlur => applyZoomBlur
  | .shatter => applyShatter
  | .radialWipe => applyRadialWipe
  | .doorSwing => applyDoorSwing
  | .twist => applyTwist
  | .fold => applyFold
  | .starBurst => applyStarBurst
  | .liquid => applyLiquid
  | .cubeRotate => applyCubeRotate
  | .morph => applyMorph
  | .gridFlip => applyGridFlip
  | .spotlight => applySpotlight
  | .vortex => applyVortex

/-- `getEffectFunction`: the `switch (selectedEffect)` dispatch, with
`applyShockZoom` as the `default` branch. -/
def getEffectFunction (selectedEffect : String) : EffectKind :=
  if selectedEffect = "shockZoom" then .shockZoom
  else if selectedEffect = "rgbGlitch" then .rgbGlitch
  else if selectedEffect = "filmBurn" then .filmBurn
  else if selectedEffect = "particleBurst" then .particleBurst
  else if selectedEffect = "wipeReveal" then .wipeReveal
  else if selectedEffect = "verticalWipe" then .verticalWipe
  else if selectedEffect = "circularReveal" then .circularReveal
  else if selectedEffect = "zoomIn" then .zoomIn
  else if selectedEffect = "zoomOut" then .zoomOut
  else if selectedEffect = "slideLeft" then .slideLeft
  else if selectedEffect = "slideRight" then .slideRight
  else if selectedEffect = "slideUp" then .slideUp
  else if selectedEffect = "slideDown" then .slideDown
  else if selectedEffect = "fadeCross" then .fadeCross
  else if selectedEffect = "spinClockwise" then .spinClockwise
  else if selectedEffect = "spinCounterClockwise" then .spinCounterClockwise
  else if selectedEffect = "diagonalWipe" then .diagonalWipe
  else if selectedEffect = "boxExpand" then .boxExpand
  else if selectedEffect = "pixelate" then .pixelate
  else if selectedEffect = "blurTransition" then .blurTransition
  else if selectedEffect = "waveDistortion" then .waveDistortion
  else if selectedEffect = "ripple" then .ripple
  else if selectedEffect = "splitHorizontal" then .splitHorizontal
  else if selectedEffect = "splitVertical" then .splitVertical
  else if selectedEffect = "flipHorizontal" then .flipHorizontal
  else if selectedEffect = "flipVertical" then .flipVertical
  else if selectedEffect = "checkerboard" then .checkerboard
  else if selectedEffect = "randomBlocks" then .randomBlocks
  else if selectedEffect = "venetianBlinds" then .venetianBlinds
  else if selectedEffect = "swirl" then .swirl
  else if selectedEffect = "diamondReveal" then .diamondReveal
  else if selectedEffect = "bounceIn" then .bounceIn
  else if selectedEffect = "elastic" then .elastic
  else if selectedEffect = "pageCurl" then .pageCurl
  else if selectedEffect = "kaleidoscope" then .kaleidoscope
  else if selectedEffect = "colorShift" then .colorShift
  else if selectedEffect = "gradientWipe" then .gradientWipe
  else if selectedEffect = "zoomBlur" then .zoomBlur
  else if selectedEffect = "shatter" then .shatter
  else if selectedEffect = "radialWipe" then .radialWipe
  else if selectedEffect = "doorSwing" then .doorSwing
  else if selectedEffect = "twist" then .twist
  else if selectedEffect = "fold" then .fold
  else if selectedEffect = "starBurst" then .starBurst
  else if selectedEffect = "liquid" then .liquid
  else if selectedEffect = "cubeRotate" then .cubeRotate
  else if selectedEffect = "morph" then .morph
  else if selectedEffect = "gridFlip" then .gridFlip
  else if selectedEffect = "spotlight" then .spotlight
  else if selectedEffect = "vortex" then .vortex
  else .shockZoom

/-- The 50 recognized effect identifiers (the `case` labels of
`getEffectFunction`, in source order). -/
def effectNames : List String :=
  ["shockZoom", "rgbGlitch", "filmBurn", "particleBurst", "wipeReveal",
   "verticalWipe", "circularReveal", "zoomIn", "zoomOut", "slideLeft",
   "slideRight", "slideUp", "slideDown", "fadeCross", "spinClockwise",
   "spinCounterClockwise", "diagonalWipe", "boxExpand", "pixelate", "blurTransition",
   "waveDistortion", "ripple", "splitHorizontal", "splitVertical", "flipHorizontal",
   "flipVertical", "checkerboard", "randomBlocks", "venetianBlinds", "swirl",
   "diamondReveal", "bounceIn", "elastic", "pageCurl", "kaleidoscope",
   "colorShift", "gradientWipe", "zoomBlur", "shatter", "radialWipe",
   "doorSwing", "twist", "fold", "starBurst", "liquid",
   "cubeRotate", "morph", "gridFlip", "spotlight", "vortex"]

/-!
## The animation driver

`playAnimation` builds the tick chain by calling the `animate` closure of
the render in which play was clicked and rescheduling that same closure
(`requestAnimationFrame(() => animate(startTime))`), so the `duration`,
`selectedEffect` and `intensity` values a run uses are the ones captured
by that closure when the run started; a `RunSnapshot` records them
together with the captured `startTime`.  The two bitmaps, in contrast,
are read through refs (`beforeImageRef.current`), which are always
current.  The `pending` field models whether a `requestAnimationFrame`
callback is currently scheduled (the callback is consumed when its tick
fires, and `cancelAnimationFrame` removes it).
-/

/-- What the `() => animate(startTime)` callback of a run closes over. -/
structure RunSnapshot where
  startTime : ℚ
  duration : ℚ
  intensity : ℚ
  selectedEffect : String
deriving DecidableEq, Repr

/-- The component state: uploaded bitmaps, selected effect, the playback
state (`isPlaying`, `progress`, `duration`, `intensity`), whether a tick
callback is scheduled, and whether the canvas element is mounted. -/
structure ToolState where
  beforeImage : Option Image
  afterImage : Option Image
  selectedEffect : String
  isPlaying : Bool
  duration : ℚ
  intensity : ℚ
  progress : ℚ
  pending : Option RunSnapshot
  canvasPresent : Bool
deriving DecidableEq, Repr

/-- Externally observable outputs: a blocking `alert(...)` notice, or one
rendered frame (the trace of context calls of one tick). -/
inductive OutputEvent where
  | alert (msg : String)
  | frame (ops : List CanvasOp)
deriving DecidableEq, Repr

/-- The `animate(startTime)` tick body: compute elapsed wall-clock time
(`now` and `startTime` in milliseconds), derive clamped progress, render
one frame with the run's captured settings and the current bitmaps, and
reschedule itself while progress is below 1; on reaching 1 it sets
`isPlaying` to `false` instead. -/
def animate (snap : RunSnapshot) (s : ToolState) (now : ℚ) (m : JsMath) (rng : ℕ → ℚ) :
    ToolState × List OutputEvent :=
  if s.canvasPresent = false then (s, [])
  else
    let elapsed := (now - snap.startTime) / 1000
    let t := min (elapsed / snap.duration) 1
    let s1 := { s with progress := t }
    let fr := runEffect (getEffectFunction snap.selectedEffect)
        ⟨m, rng, s.beforeImage, s.afterImage, snap.intensity⟩ t
    if t < 1 then ({ s1 with pending := some snap }, [.frame fr])
    else ({ s1 with isPlaying := false }, [.frame fr])

/-- `playAnimation`: reject with a single alert when either bitmap is
missing; otherwise cancel any scheduled tick, set `isPlaying`, reset
progress to 0 and run the first tick immediately at `now`, capturing the
current settings into the run's closure. -/
def playAnimation (s : ToolState) (now : ℚ) (m : JsMath) (rng : ℕ → ℚ) :
    ToolState × List OutputEvent :=
  if s.beforeImage = none ∨ s.afterImage = none then
    (s, [.alert "Please upload both BEFORE and AFTER images"])
  else
    animate ⟨now, s.duration, s.intensity, s.selectedEffect⟩
      { s with pending := none, isPlaying := true, progress := 0 } now m rng

/-- `stopAnimation`: cancel the scheduled tick (if any) and leave
playback immediately. -/
def stopAnimation (s : ToolState) : ToolState :=
  { s with pending := none, isPlaying := false }

/-- A display-refresh tick: if a callback is scheduled it fires (and is
thereby consumed) with the run snapshot it closed over; otherwise
nothing happens. -/
def fireTick (s : ToolState) (now : ℚ) (m : JsMath) (rng : ℕ → ℚ) :
    ToolState × List OutputEvent :=
  match s.pending with
  | none => (s, [])
  | some snap => animate snap { s with pending := none } now m rng

/-- The user / environment events that can occur between a stop request
and the next play request (play itself is modelled separately by
`playAnimation`). -/
inductive Event where
  | tick (now : ℚ)
  | stop
  | setEffect (e : String)
  | setDuration (d : ℚ)
  | setIntensity (i : ℚ)
  | uploadBefore (img : Image)
  | uploadAfter (img : Image)

/-- One event step of the component. -/
def step (m : JsMath) (rng : ℕ → ℚ) (s : ToolState) : Event → ToolState × List OutputEvent
  | .tick now => fireTick s now m rng
  | .stop => (stopAnimation s, [])
  | .setEffect e => ({ s with selectedEffect := e }, [])
  | .setDuration d => ({ s with duration := d }, [])
  | .setIntensity i => ({ s with intensity := i }, [])
  | .uploadBefore img => ({ s with beforeImage := some img }, [])
  | .uploadAfter img => ({ s with afterImage := some img }, [])

/-- Run a sequence of events, collecting all outputs in order. -/
def runEvents (m : JsMath) (rng : ℕ → ℚ) (s : ToolState) :
    List Event → ToolState × List OutputEvent
  | [] => (s, [])
  | ev :: evs =>
    let r1 := step m rng s ev
    let r2 := runEvents m rng r1.1 evs
    (r2.1, r1.2 ++ r2.2)

/-- A sample 1080×1920 bitmap used to instantiate theorems. -/
def img0 : Image := ⟨1080, 1920⟩

/-- A ready-to-play state: both bitmaps loaded, `fadeCross` selected,
duration 2 s, intensity 0.8, canvas mounted. -/
def sReady : ToolState :=
  { beforeImage := some img0, afterImage := some img0, selectedEffect := "fadeCross",
    isPlaying := false, duration := 2, intensity := 0.8, progress := 0,
    pending := none, canvasPresent := true }

/-- A state with the AFTER bitmap missing. -/
def sNoAfter : ToolState :=
  { beforeImage := some img0, afterImage := none, selectedEffect := "shockZoom",
    isPlaying := false, duration := 3, intensity := 0.8, progress := 0,
    pending := none, canvasPresent := true }

/-- A mid-run state: a `slideLeft` run started at time 0 with duration 2
and intensity 1/2, whose next tick is scheduled. -/
def sRunning : ToolState :=
  { beforeImage := some img0, afterImage := some img0, selectedEffect := "slideLeft",
    isPlaying := true, duration := 2, intensity := 1 / 2, progress := 0,
    pending := some ⟨0, 2, 1 / 2, "slideLeft"⟩, canvasPresent := true }

/-- A sample run snapshot used to instantiate theorems. -/
def snapW : RunSnapshot := ⟨0, 2, 4 / 5, "fadeCross"⟩

/-- A concrete instantiation of the ambient `Math` functions used to
evaluate theorems at specific inputs. -/
def mathZero : JsMath := ⟨fun _ => 0, fun _ => 0, fun _ => 0, fun _ _ => 0, 0⟩

/-- A concrete `Math.random` stream that always yields 0. -/
def rngZero : ℕ → ℚ := fun _ => 0

/-- A concrete `Math.random` stream that always yields 1. -/
def rngOne : ℕ → ℚ := fun _ => 1

/-!
## Theorems

The irreducibility of the rational-number operations is lifted locally so
that closed instances of the theorems evaluate by `decide`.
-/

attribute [local semireducible] Rat.add Rat.mul Rat.inv Rat.sub Rat.ofScientific

/-- Helper: when the canvas is mounted, the progress a tick stores is the
elapsed time over the run duration, clamped to 1. -/
theorem animate_progress_eq (snap : RunSnapshot) (s : ToolState) (now : ℚ)
    (m : JsMath) (rng : ℕ → ℚ) (hc : s.canvasPresent = true) :
    (animate snap s now m rng).1.progress =
      min ((now - snap.startTime) / 1000 / snap.duration) 1 := by
  unfold animate
  rw [if_neg (by simp [hc])]
  dsimp only
  split <;> rfl

/-- C1: a play request while either bitmap is absent shows exactly one
user-facing notice (the `alert`), returns the state unchanged — so
`isPlaying` stays `false` when it was `false` (Idle), `progress` is not
modified, and no tick is scheduled (`pending` is unchanged). -/
theorem playAnimation_missing_input_rejected
    (s : ToolState) (now : ℚ) (m : JsMath) (rng : ℕ → ℚ)
    (h : s.beforeImage = none ∨ s.afterImage = none) (hidle : s.isPlaying = false) :
    playAnimation s now m rng = (s, [.alert "Please upload both BEFORE and AFTER images"]) ∧
    (playAnimation s now m rng).1.isPlaying = false ∧
    (playAnimation s now m rng).1.progress = s.progress ∧
    (playAnimation s now m rng).1.pending = s.pending := by
  have he : playAnimation s now m rng =
      (s, [.alert "Please upload both BEFORE and AFTER images"]) := by
    unfold playAnimation; rw [if_pos h]
  exact ⟨he, by rw [he]; exact hidle, by rw [he], by rw [he]⟩

/-- Witness for C1 at a concrete state missing the AFTER bitmap. -/
theorem playAnimation_missing_input_rejected_witness :
    (sNoAfter.beforeImage = none ∨ sNoAfter.afterImage = none) ∧ sNoAfter.isPlaying = false ∧
    (playAnimation sNoAfter 0 mathZero rngZero =
        (sNoAfter, [.alert "Please upload both BEFORE and AFTER images"]) ∧
      (playAnimation sNoAfter 0 mathZero rngZero).1.isPlaying = false ∧
      (playAnimation sNoAfter 0 mathZero rngZero).1.progress = sNoAfter.progress ∧
      (playAnimation sNoAfter 0 mathZero rngZero).1.pending = sNoAfter.pending) :=
  ⟨Or.inr rfl, rfl,
   playAnimation_missing_input_rejected sNoAfter 0 mathZero rngZero (Or.inr rfl) rfl⟩

/-- C2: within a run, the progress a tick computes equals
`min (elapsed / duration) 1`, lies in `[0, 1]`, and is monotone across
ticks of the run, assuming the wall clock is non-decreasing and the
run's duration is positive — even when elapsed time exceeds duration. -/
theorem animate_progress_clamped_monotone
    (snap : RunSnapshot) (s s' : ToolState) (now₁ now₂ : ℚ)
    (m m' : JsMath) (rng rng' : ℕ → ℚ)
    (hc : s.canvasPresent = true) (hc' : s'.canvasPresent = true)
    (hd : 0 < snap.duration) (h1 : snap.startTime ≤ now₁) (h12 : now₁ ≤ now₂) :
    (animate snap s now₁ m rng).1.progress =
      min ((now₁ - snap.startTime) / 1000 / snap.duration) 1 ∧
    0 ≤ (animate snap s now₁ m rng).1.progress ∧
    (animate snap s now₁ m rng).1.progress ≤ 1 ∧
    (animate snap s now₁ m rng).1.progress ≤ (animate snap s' now₂ m' rng').1.progress := by
  rw [animate_progress_eq snap s now₁ m rng hc, animate_progress_eq snap s' now₂ m' rng' hc']
  refine ⟨rfl, ?_, min_le_right _ _, ?_⟩
  · exact le_min (div_nonneg (div_nonneg (sub_nonneg.mpr h1) (by norm_num)) hd.le) zero_le_one
  · exact min_le_min (by gcongr) le_rfl

/-- Witness for C2: the run of `snapW` (duration 2 s) observed at 500 ms
and 1500 ms. -/
theorem animate_progress_clamped_monotone_witness :
    (sReady.canvasPresent = true ∧ (0 : ℚ) < snapW.duration ∧
      snapW.startTime ≤ (500 : ℚ) ∧ (500 : ℚ) ≤ 1500) ∧
    ((animate snapW sReady 500 mathZero rngZero).1.progress =
        min ((500 - snapW.startTime) / 1000 / snapW.duration) 1 ∧
      0 ≤ (animate snapW sReady 500 mathZero rngZero).1.progress ∧
      (animate snapW sReady 500 mathZero rngZero).1.progress ≤ 1 ∧
      (animate snapW sReady 500 mathZero rngZero).1.progress ≤
        (animate snapW sReady 1500 mathZero rngZero).1.progress) :=
  ⟨⟨rfl, by norm_num [snapW], by norm_num [snapW], by norm_num⟩,
   animate_progress_clamped_monotone snapW sReady sReady 500 1500 mathZero mathZero
     rngZero rngZero rfl rfl (by norm_num [snapW]) (by norm_num [snapW]) (by norm_num)⟩

/-- C3 (counterexample): starting from the mid-run state `sRunning`
(a `slideLeft` run, duration 2, intensity 1/2, started at 0), the user
changes the effect to `fadeCross`, the duration to 4 and the intensity
to 1; the next tick at 1000 ms still renders the `slideLeft` frame with
the old duration and intensity (progress 1/2, intensity 1/2) — not the
`fadeCross` frame with the new settings the claim predicts — because the
scheduled `requestAnimationFrame` callback closes over the `animate`
closure, `getEffectFunction` and effect closures of the render in which
play was clicked. -/
theorem midrun_settings_change_counterexample :
    (runEvents mathZero rngZero sRunning
        [.setEffect "fadeCross", .setDuration 4, .setIntensity 1, .tick 1000]).2 =
      [.frame (applySlideLeft ⟨mathZero, rngZero, some img0, some img0, 1 / 2⟩ (1 / 2))] ∧
    (runEvents mathZero rngZero sRunning
        [.setEffect "fadeCross", .setDuration 4, .setIntensity 1, .tick 1000]).2 ≠
      [.frame (applyFadeCross ⟨mathZero, rngZero, some img0, some img0, 1⟩ (1 / 4))] := by
  constructor <;> decide

/-- C3 (amended): changing effect selection, duration, or intensity
while Running does not affect the in-flight run at all: every remaining
tick keeps using the `(selectedEffect, duration, intensity)` captured in
the run's callback snapshot when play was pressed (the bitmaps, read
through refs, stay current); the new settings only apply from the next
play request. -/
theorem midrun_settings_change_ignored
    (s : ToolState) (snap : RunSnapshot) (e : String) (d i now : ℚ)
    (m : JsMath) (rng : ℕ → ℚ) :
    (runEvents m rng { s with pending := some snap, canvasPresent := true }
        [.setEffect e, .setDuration d, .setIntensity i, .tick now]).2 =
      [.frame (runEffect (getEffectFunction snap.selectedEffect)
          ⟨m, rng, s.beforeImage, s.afterImage, snap.intensity⟩
          (min ((now - snap.startTime) / 1000 / snap.duration) 1))] := by
  obtain ⟨bi, ai, se, ip, dd, ii, p, pd, cp⟩ := s
  simp only [runEvents, step, fireTick, animate]
  by_cases h : min ((now - snap.startTime) / 1000 / snap.duration) 1 < 1
  · rw [if_neg (show ¬(true = false) by decide), if_pos h]
    rfl
  · rw [if_neg (show ¬(true = false) by decide), if_neg h]
    rfl

/-- C4: for every effect in the library (every tag `runEffect` can
dispatch to) and every progress value, if either bitmap is absent the
effect performs no context operation at all (empty trace): it returns
before touching the surface, so it cannot throw on the missing image. -/
theorem effect_noop_on_missing_bitmap (k : EffectKind) (m : JsMath) (rng : ℕ → ℚ)
    (i t : ℚ) :
    (∀ oa : Option Image, runEffect k ⟨m, rng, none, oa, i⟩ t = []) ∧
    (∀ ob : Option Image, runEffect k ⟨m, rng, ob, none, i⟩ t = []) :=
  ⟨fun oa => by cases k <;> rfl, fun ob => by cases k <;> cases ob <;> rfl⟩

/-- C5: playing `fadeCross` with duration 2 s and intensity 0.8, the
tick at elapsed 1.0 s computes progress 1/2 and renders: clear the whole
surface, draw the BEFORE image at global alpha 1/2, then the AFTER image
at global alpha 1/2 on top. -/
theorem fadeCross_midpoint_frame :
    (fireTick (playAnimation sReady 0 mathZero rngZero).1 1000 mathZero rngZero).1.progress =
      1 / 2 ∧
    (fireTick (playAnimation sReady 0 mathZero rngZero).1 1000 mathZero rngZero).2 =
      [.frame [.clearRect 0 0 1080 1920,
               .save, .setGlobalAlpha (1 / 2), .drawImg img0 0 0 1080 1920, .restore,
               .save, .setGlobalAlpha (1 / 2), .drawImg img0 0 0 1080 1920, .restore]] := by
  constructor <;> decide

/-- Helper: once no tick is scheduled, no sequence of non-play events
(ticks, stop, setting changes, uploads) produces any output. -/
theorem runEvents_no_pending (m : JsMath) (rng : ℕ → ℚ) (evs : List Event) :
    ∀ s : ToolState, s.pending = none → (runEvents m rng s evs).2 = [] := by
  induction evs with
  | nil => intro s _; rfl
  | cons ev evs ih =>
    intro s h
    cases ev with
    | tick now =>
      have hf : fireTick s now m rng = (s, []) := by unfold fireTick; rw [h]
      simp [runEvents, step, hf, ih s h]
    | stop => simpa [runEvents, step, stopAnimation] using ih _ rfl
    | setEffect e => simpa [runEvents, step] using ih { s with selectedEffect := e } h
    | setDuration d => simpa [runEvents, step] using ih { s with duration := d } h
    | setIntensity i => simpa [runEvents, step] using ih { s with intensity := i } h
    | uploadBefore img => simpa [runEvents, step] using ih { s with beforeImage := some img } h
    | uploadAfter img => simpa [runEvents, step] using ih { s with afterImage := some img } h

/-- C6: a stop request cancels the scheduled tick and moves to Idle
immediately, and from then on — under any further ticks, setting
changes, uploads or stops, with no play request — the animation loop
emits no output at all, so the drawing surface is never mutated again
until the next play. -/
theorem stopAnimation_halts_frames (s : ToolState) (m : JsMath) (rng : ℕ → ℚ)
    (evs : List Event) :
    (stopAnimation s).pending = none ∧ (stopAnimation s).isPlaying = false ∧
    (runEvents m rng (stopAnimation s) evs).2 = [] :=
  ⟨rfl, rfl, runEvents_no_pending m rng evs _ rfl⟩

/-- C7: a tick of an in-flight run renders exactly one frame — the run's
effect applied at the derived progress — and reschedules itself exactly
when progress is below 1; on the tick where progress reaches 1 it still
renders that final frame, schedules nothing, and sets `isPlaying` to
`false`. -/
theorem tick_renders_and_reschedules
    (s : ToolState) (snap : RunSnapshot) (now : ℚ) (m : JsMath) (rng : ℕ → ℚ) :
    fireTick { s with pending := some snap, canvasPresent := true } now m rng =
      ({ s with canvasPresent := true,
                progress := min ((now - snap.startTime) / 1000 / snap.duration) 1,
                pending := if min ((now - snap.startTime) / 1000 / snap.duration) 1 < 1
                           then some snap else none,
                isPlaying := if min ((now - snap.startTime) / 1000 / snap.duration) 1 < 1
                             then s.isPlaying else false },
       [.frame (runEffect (getEffectFunction snap.selectedEffect)
           ⟨m, rng, s.beforeImage, s.afterImage, snap.intensity⟩
           (min ((now - snap.startTime) / 1000 / snap.duration) 1))]) := by
  obtain ⟨bi, ai, se, ip, d, i, p, pd, cp⟩ := s
  unfold fireTick animate
  dsimp only
  by_cases h : min ((now - snap.startTime) / 1000 / snap.duration) 1 < 1
  · rw [if_neg (show ¬(true = false) by decide), if_pos h, if_pos h, if_pos h]
  · rw [if_neg (show ¬(true = false) by decide), if_neg h, if_neg h, if_neg h]

/-- C8: with both bitmaps present, every effect's first context
operation clears the entire 1080×1920 surface, so no pixel persists
implicitly from the previous frame; the pixelate effect — the
acknowledged special case — additionally samples the surface's own
content back through a temporary canvas after clearing and redrawing
(here at progress 1/4 and intensity 1, sampling at 21×38). -/
theorem effect_clears_surface_first (k : EffectKind) (m : JsMath) (rng : ℕ → ℚ)
    (b a : Image) (i t : ℚ) :
    (runEffect k ⟨m, rng, some b, some a, i⟩ t).head? =
      some (.clearRect 0 0 CANVAS_WIDTH CANVAS_HEIGHT) ∧
    CanvasOp.sampleCanvas 21 38 ∈
      applyPixelate ⟨mathZero, rngZero, some img0, some img0, 1⟩ (1 / 4) :=
  ⟨by cases k <;> rfl, by decide⟩

/-- Helper: a fresh run always restarts progress at 0 (the play handler
resets it before the first tick, whose elapsed time is 0). -/
theorem rerun_resets_progress :
    ∀ (s : ToolState) (b a : Image) (now : ℚ) (m : JsMath) (rng : ℕ → ℚ),
      (playAnimation { s with beforeImage := some b, afterImage := some a }
        now m rng).1.progress = 0 := by
  intro s b a now m rng
  obtain ⟨bi, ai, se, ip, d, i, p, pd, cp⟩ := s
  simp only [playAnimation, reduceCtorEq, or_self, if_false]
  unfold animate
  cases cp with
  | false => rw [if_pos (show (false : Bool) = false from rfl)]
  | true =>
    rw [if_neg (show ¬((true : Bool) = false) by decide)]
    dsimp only
    have h0 : min ((now - now) / 1000 / d) 1 = (0 : ℚ) := by simp
    rw [h0, if_pos (by norm_num : (0 : ℚ) < 1)]

/-- C9: re-running resets progress to 0; the frames of the sine-hash
effects (`randomBlocks`, `shatter`) do not depend on the `Math.random`
stream at all, so for the same `(effect, duration, intensity)` and the
same tick times the frame sequence is reproducible across runs; and
`filmBurn`, which draws frame-local edge grain from `Math.random`, is
the exception: two runs whose random streams differ render different
frames at the same progress. -/
theorem rerun_reset_and_determinism :
    (∀ (s : ToolState) (b a : Image) (now : ℚ) (m : JsMath) (rng : ℕ → ℚ),
      (playAnimation { s with beforeImage := some b, afterImage := some a }
        now m rng).1.progress = 0) ∧
    (∀ (m : JsMath) (rng₁ rng₂ : ℕ → ℚ) (ob oa : Option Image) (i t : ℚ),
      applyRandomBlocks ⟨m, rng₁, ob, oa, i⟩ t = applyRandomBlocks ⟨m, rng₂, ob, oa, i⟩ t ∧
      applyShatter ⟨m, rng₁, ob, oa, i⟩ t = applyShatter ⟨m, rng₂, ob, oa, i⟩ t) ∧
    applyFilmBurn ⟨mathZero, rngZero, some img0, some img0, 1⟩ (1 / 2) ≠
      applyFilmBurn ⟨mathZero, rngOne, some img0, some img0, 1⟩ (1 / 2) :=
  ⟨rerun_resets_progress,
   fun _ _ _ ob oa _ _ =>
     ⟨by cases ob <;> cases oa <;> rfl, by cases ob <;> cases oa <;> rfl⟩,
   by decide⟩

/-- C10: for every selection string outside the 50 recognized effect
identifiers, the dispatch falls through to its default and returns the
Shock Zoom effect, so an unknown effect name never fails. -/
theorem unknown_effect_defaults_to_shockZoom (e : String) (h : e ∉ effectNames) :
    getEffectFunction e = .shockZoom := by
  simp only [effectNames, List.mem_cons, not_or, List.not_mem_nil, not_false_eq_true,
    and_true] at h
  obtain ⟨h1, h2, h3, h4, h5, h6, h7, h8, h9, h10, h11, h12, h13, h14, h15, h16, h17, h18, h19, h20, h21, h22, h23, h24, h25, h26, h27, h28, h29, h30, h31, h32, h33, h34, h35, h36, h37, h38, h39, h40, h41, h42, h43, h44, h45, h46, h47, h48, h49, h50⟩ := h
  simp only [getEffectFunction, h1, h2, h3, h4, h5, h6, h7, h8, h9, h10, h11, h12, h13, h14, h15, h16, h17, h18, h19, h20, h21, h22, h23, h24, h25, h26, h27, h28, h29, h30, h31, h32, h33, h34, h35, h36, h37, h38, h39, h40, h41, h42, h43, h44, h45, h46, h47, h48, h49, h50, if_false, ite_false]

/-- Witness for C10 at the unrecognized selection string. -/
theorem unknown_effect_defaults_to_shockZoom_witness :
    "noSuchEffect" ∉ effectNames ∧ getEffectFunction "noSuchEffect" = .shockZoom :=
  ⟨by decide, unknown_effect_defaults_to_shockZoom "noSuchEffect" (by decide)⟩

end Reels
